import Mathlib

/-!
Verification of the llamalint rule engine (shallow embedding).

The definitions below are translated from the repository sources:
  - `src/llamalint/utils.py`      (FileUtils: find_files, is_ignored, _glob_to_regex)
  - `src/llamalint/linter.py`     (LlamaLint: lint_file rule loop, _apply_fixes)
  - `src/llamalint/rules/base.py` (Rule.get_option, RuleResult)
  - `src/llamalint/rules/python/imports.py`    (ImportsRule)
  - `src/llamalint/rules/python/docstrings.py` (DocstringsRule)

Python strings are modelled as Lean `String` (sequences of characters, as
Python indexes by code point), Python `None` via `Option`, Python dicts by
association lists, and Python exceptions by `Except`.  Helper functions
named `py...` reproduce the semantics of the corresponding CPython string
operations used by the source.
-/

namespace Llint

/-- Model of CPython `str.replace(old, new)`: replace all non-overlapping
occurrences left to right.  (The source never calls it with an empty `old`;
for empty `old` this model is the identity.)  Fuel is the input length,
which bounds the recursion depth. -/
def replaceAux (old new : List Char) : Nat → List Char → List Char
  | 0, s => s
  | _ + 1, [] => []
  | fuel + 1, c :: cs =>
    if old ≠ [] ∧ old.isPrefixOf (c :: cs) then
      new ++ replaceAux old new fuel ((c :: cs).drop old.length)
    else
      c :: replaceAux old new fuel cs

def pyReplace (s old new : String) : String :=
  String.mk (replaceAux old.data new.data s.data.length s.data)

/-- Model of CPython `str.startswith`. -/
def pyStartsWith (s pre : String) : Bool :=
  pre.data.isPrefixOf s.data

/-- Model of CPython `str.endswith`. -/
def pyEndsWith (s suf : String) : Bool :=
  suf.data.isSuffixOf s.data

/-- Contiguous-sublist test: does `needle` occur inside `hay`? -/
def hasSubstr (needle : List Char) : List Char → Bool
  | [] => needle.isEmpty
  | c :: cs => needle.isPrefixOf (c :: cs) || hasSubstr needle cs

/-- Model of the CPython `in` operator on strings (substring test). -/
def pyIn (needle hay : String) : Bool :=
  hasSubstr needle.data hay.data

/-- Model of CPython slicing `s[:n]` (clamped). -/
def pyTake (n : Nat) (s : String) : String :=
  String.mk (s.data.take n)

/-- Model of CPython slicing `s[n:]` (clamped). -/
def pyDrop (n : Nat) (s : String) : String :=
  String.mk (s.data.drop n)

/-- Lexicographic comparison of character lists by code point, as CPython
compares strings with `<` and `>`. -/
def charListLt : List Char → List Char → Bool
  | [], [] => false
  | [], _ :: _ => true
  | _ :: _, [] => false
  | a :: as, b :: bs =>
    if a.val < b.val then true
    else if b.val < a.val then false
    else charListLt as bs

/-- Model of CPython `a > b` on strings. -/
def pyStrGt (a b : String) : Bool :=
  charListLt b.data a.data

/-- Model of CPython `name.split(".")[0]`: the characters before the first
dot (the whole string when there is no dot). -/
def firstSegment (s : String) : String :=
  String.mk (s.data.takeWhile (fun c => c ≠ '.'))

/-- Model of CPython `sep.join(parts)`. -/
def joinSep (sep : String) : List String → String
  | [] => ""
  | [s] => s
  | s :: rest => s ++ sep ++ joinSep sep rest

/-- Line-boundary characters recognised by CPython `str.splitlines`
(in addition to the two-character boundary CR LF, handled separately). -/
def isLineBreak (c : Char) : Bool :=
  c = '\n' || c = '\r' || c.toNat = 0x0b || c.toNat = 0x0c ||
  c.toNat = 0x1c || c.toNat = 0x1d || c.toNat = 0x1e || c.toNat = 0x85 ||
  c.toNat = 0x2028 || c.toNat = 0x2029

/-- Worker for CPython `str.splitlines(keepends)`.  `acc` holds the
characters of the current line in reverse.  When `keep` is true the line
terminators are retained with their lines. -/
def slAux (keep : Bool) : List Char → List Char → List (List Char)
  | acc, [] => if acc.isEmpty then [] else [acc.reverse]
  | acc, '\r' :: '\n' :: cs2 =>
    (acc.reverse ++ (if keep then ['\r', '\n'] else [])) :: slAux keep [] cs2
  | acc, c :: cs =>
    if c = '\r' then
      (acc.reverse ++ (if keep then ['\r'] else [])) :: slAux keep [] cs
    else if isLineBreak c then
      (acc.reverse ++ (if keep then [c] else [])) :: slAux keep [] cs
    else
      slAux keep (c :: acc) cs

/-- Model of CPython `content.splitlines(True)` as used by
`LlamaLint._apply_fixes` (line terminators kept). -/
def splitLinesKeepEnds (s : String) : List String :=
  (slAux true [] s.data).map String.mk

/-- Model of CPython `content.splitlines()` as used by the rules
(line terminators dropped). -/
def splitLines (s : String) : List String :=
  (slAux false [] s.data).map String.mk

/-- Model of CPython `"".join(lines)`. -/
def strJoin (l : List String) : String :=
  String.mk (l.map String.data).flatten

/-- Diagnostic record, translated from `RuleResult` in
`src/llamalint/rules/base.py`.  Line numbers are 1-indexed (0 means
file-level), columns 0-indexed; the nonnegative Python ints produced by the
engine are modelled as `Nat`. -/
structure RuleResult where
  rule_id : String
  file_path : String
  line : Nat
  column : Nat
  message : String
  severity : String := "error"
  source : Option String := none
  fix : Option String := none
  fix_type : Option String := none
  fix_range : Option (Nat × Nat) := none
deriving DecidableEq

/-- Sort key used by `_apply_fixes`: `(r.line, r.column)`. -/
def fixKey (r : RuleResult) : Nat × Nat := (r.line, r.column)

/-- Strict lexicographic order on sort keys. -/
def keyLt (a b : Nat × Nat) : Bool :=
  if a.1 < b.1 then true
  else if a.1 = b.1 then decide (a.2 < b.2)
  else false

/-- Insert `r` into a list already sorted in descending key order, after
every element whose key is greater than or equal to `r`'s key.  Folding
this over the input reproduces Python's stable
`list.sort(key=..., reverse=True)`: descending by key, elements with equal
keys kept in input order. -/
def insertDesc (r : RuleResult) : List RuleResult → List RuleResult
  | [] => [r]
  | x :: xs => if keyLt (fixKey x) (fixKey r) then r :: x :: xs else x :: insertDesc r xs

/-- Model of `fixable_results.sort(key=lambda r: (r.line, r.column),
reverse=True)` from `LlamaLint._apply_fixes`. -/
def sortDescByKey (l : List RuleResult) : List RuleResult :=
  l.foldl (fun acc r => insertDesc r acc) []

/-- One iteration of the fix loop in `LlamaLint._apply_fixes`
(linter.py lines 343-354).  Note the Python guard `if result.fix and ...`
uses truthiness, so an empty-string fix is skipped; `lines[line_idx]` is
in bounds whenever the guard holds, so `getD` only ever hits its default
outside the guarded region. -/
def applyOneFix (lines : List String) (r : RuleResult) : List String :=
  match r.fix with
  | none => lines
  | some s =>
    if s ≠ "" ∧ 1 ≤ r.line ∧ r.line ≤ lines.length then
      let idx := r.line - 1
      let line := lines.getD idx ""
      if r.fix_type = some "replace_line" then
        lines.set idx s
      else if r.fix_type = some "replace_range" then
        (match r.fix_range with
         | some (startCol, endCol) =>
             lines.set idx (pyTake startCol line ++ s ++ pyDrop endCol line)
         | none => lines)
      else lines
    else lines

/-- Model of `LlamaLint._apply_fixes` (linter.py lines 320-355): select the
results carrying a fix, sort them descending by `(line, column)`, split the
content into lines keeping the terminators, apply each fix in order, and
rejoin. -/
def applyFixes (content : String) (results : List RuleResult) : String :=
  let fixable := results.filter (fun r => r.fix.isSome)
  let sorted := sortDescByKey fixable
  let lines := splitLinesKeepEnds content
  strJoin (sorted.foldl applyOneFix lines)

/-- A rule as seen by `LlamaLint.lint_file`: an id and a `check` operation.
A Python `check` that raises is modelled by `Except.error` carrying the
exception text. -/
structure MRule where
  id : String
  check : String → String → Except String (List RuleResult)

/-- The diagnostic built in the `except` branch of `LlamaLint.lint_file`
(linter.py lines 195-204). -/
def execErrorResult (ruleId path msg : String) : RuleResult :=
  { rule_id := ruleId, file_path := path, line := 0, column := 0,
    message := "Rule execution error: " ++ msg, severity := "error" }

/-- One iteration of the rule loop in `LlamaLint.lint_file` (linter.py
lines 189-204): extend the accumulated results with the rule's results, or
with the single execution-error diagnostic when the rule raised. -/
def runRuleStep (path content : String) (acc : List RuleResult) (r : MRule) :
    List RuleResult :=
  match r.check path content with
  | .ok rs => acc ++ rs
  | .error e => acc ++ [execErrorResult r.id path e]

/-- The rule-application loop of `LlamaLint.lint_file` (linter.py lines
188-204) over the applicable rules. -/
def runRules (path content : String) (rules : List MRule) : List RuleResult :=
  rules.foldl (runRuleStep path content) []

/-- Model of `FileUtils._glob_to_regex` from `src/llamalint/utils.py`
(identical code appears as `Rule._glob_to_regex` in rules/base.py): the
chain of string replacements producing the regex source text, then the
anchors.  Note the final `.`-escaping step also rewrites the `.`
introduced for `**` two steps earlier. -/
def globToRegexString (pattern : String) : String :=
  let p := pyReplace pattern "**" "__DOUBLE_STAR__"
  let p := pyReplace p "*" "[^/]*"
  let p := pyReplace p "__DOUBLE_STAR__" ".*"
  let p := pyReplace p "?" "[^/]"
  let p := pyReplace p "." "\\."
  "^" ++ p ++ "$"

/-- Atoms of the regex fragment that `_glob_to_regex` can emit: a literal
character, the class `[^/]`, or the metacharacter `.` (any character except
a newline, as in Python `re` without DOTALL). -/
inductive RAtom where
  | lit (c : Char)
  | notSlash
  | anyChar

def matchAtom : RAtom → Char → Bool
  | .lit c, d => c = d
  | .notSlash, d => d ≠ '/'
  | .anyChar, d => d ≠ '\n'

/-- A regex item: an atom, possibly under a Kleene star. -/
structure RItem where
  atom : RAtom
  starred : Bool

/-- Characters that are metacharacters for Python `re` and are not part of
the fragment this parser understands; a regex containing one of them in
atom position is rejected (parse failure). -/
def isRegexMeta (c : Char) : Bool :=
  c = '(' || c = ')' || c = '[' || c = ']' || c = '{' || c = '}' ||
  c = '+' || c = '|' || c = '?' || c = '^' || c = '$' || c = '*' || c = '\\'

/-- Parse the body of a regex produced by `_glob_to_regex` into items.
Escapes other than `\.` never occur in that output and are rejected.
Fuel bounds recursion; `l.length + 1` always suffices. -/
def parseItemsF : Nat → List Char → Option (List RItem)
  | 0, _ => none
  | _ + 1, [] => some []
  | fuel + 1, l =>
    let step (a : RAtom) (rest : List Char) : Option (List RItem) :=
      match rest with
      | '*' :: rest2 => (parseItemsF fuel rest2).map (fun is => ⟨a, true⟩ :: is)
      | _ => (parseItemsF fuel rest).map (fun is => ⟨a, false⟩ :: is)
    match l with
    | '\\' :: '.' :: rest => step (RAtom.lit '.') rest
    | '[' :: '^' :: '/' :: ']' :: rest => step RAtom.notSlash rest
    | '.' :: rest => step RAtom.anyChar rest
    | c :: rest => if isRegexMeta c then none else step (RAtom.lit c) rest
    | [] => some []

/-- Anchored matching of a parsed item sequence against a character list
(backtracking).  Fuel bounds recursion; `items.length + s.length + 1`
always suffices since every call shrinks `items.length + s.length`. -/
def matchItemsF : Nat → List RItem → List Char → Bool
  | 0, _, _ => false
  | _ + 1, [], [] => true
  | _ + 1, [], _ :: _ => false
  | fuel + 1, ⟨a, false⟩ :: is, s =>
    match s with
    | [] => false
    | c :: cs => matchAtom a c && matchItemsF fuel is cs
  | fuel + 1, ⟨a, true⟩ :: is, s =>
    matchItemsF fuel is s ||
      (match s with
       | [] => false
       | c :: cs => matchAtom a c && matchItemsF fuel (⟨a, true⟩ :: is) cs)

/-- Model of `compiled.search(path)` for the anchored regexes produced by
`_glob_to_regex`: strip the `^`/`$` anchors and match the whole path.
(`re.search` on a `^...$` pattern without MULTILINE is a full match; the
`$`-before-trailing-newline subtlety is irrelevant because paths contain no
newline.)  Malformed regexes yield `false`; `_glob_to_regex` raises at
compile time on those, never at match time. -/
def regexFullMatch (regex : String) (s : String) : Bool :=
  match regex.data with
  | '^' :: rest =>
    match rest.getLast? with
    | some '$' =>
      let body := rest.dropLast
      match parseItemsF (body.length + 1) body with
      | some items => matchItemsF (items.length + s.data.length + 1) items s.data
      | none => false
    | _ => false
  | _ => false

/-- The compiled-matcher predicate: glob pattern against a path, as
`FileUtils._glob_to_regex(pattern).search(path)` evaluates it. -/
def globMatches (pattern path : String) : Bool :=
  regexFullMatch (globToRegexString pattern) path

/-- Model of `FileUtils.is_ignored` from `src/llamalint/utils.py` (lines
72-107).  Python substitutes the default `["**/*"]` when the include list
is falsy (None or empty) — `include_patterns or ["**/*"]` — and `[]` for a
falsy exclude list; the path is normalized to forward slashes. -/
def is_ignored (path : String) (include_patterns exclude_patterns : List String) : Bool :=
  let includes := if include_patterns.isEmpty then ["**/*"] else include_patterns
  let excludes := exclude_patterns
  let pathStr := pyReplace path "\\" "/"
  if excludes.any (fun p => globMatches p pathStr) then true
  else if !(includes.any (fun p => globMatches p pathStr)) then true
  else false

/-- The per-file accept decision of `FileUtils.find_files` (utils.py lines
59-68), applied to the relative path of each file produced by the directory
walk: keep a file iff it matches some include pattern and no exclude
pattern.  (The walk itself and its pruning of excluded directories are
modelled by the input list of relative paths; pruning only removes more
excluded paths and cannot re-admit one.) -/
def findFilesFilter (include_patterns exclude_patterns : List String)
    (relPaths : List String) : List String :=
  let includes := if include_patterns.isEmpty then ["**/*"] else include_patterns
  relPaths.filter (fun rel =>
    let relStr := pyReplace rel "\\" "/"
    includes.any (fun p => globMatches p relStr) &&
      !(exclude_patterns.any (fun p => globMatches p relStr)))

/-- An `ast.alias` node: imported name with optional `as` alias. -/
structure ImportAlias where
  name : String
  asname : Option String

/-- An `ast.Import` / `ast.ImportFrom` node with its source location. -/
inductive ImportNode where
  | imp (names : List ImportAlias) (lineno col : Nat)
  | impFrom (module : Option String) (names : List ImportAlias) (level : Nat)
      (lineno col : Nat)

def ImportNode.lineno : ImportNode → Nat
  | .imp _ l _ => l
  | .impFrom _ _ _ l _ => l

def ImportNode.col : ImportNode → Nat
  | .imp _ _ c => c
  | .impFrom _ _ _ _ c => c

/-- The fragment of Python expressions the analysed inputs use:
`ast.Name`, `ast.Attribute`, `ast.Call`. -/
inductive PyExpr where
  | name (id : String)
  | attr (value : PyExpr) (attrName : String)
  | call (func : PyExpr) (args : List PyExpr)

/-- The fragment of Python statements the analysed inputs use. -/
inductive PyStmt where
  | importStmt (node : ImportNode)
  | funcDef (name : String) (args : List String) (returnsPresent : Bool)
      (body : List PyStmt) (lineno col : Nat)
  | ret (value : Option PyExpr)
  | exprStmt (value : PyExpr)

mutual

/-- Collect the `Import`/`ImportFrom` nodes of a tree, as the
`ast.walk`-driven loop in `ImportsRule.check` (imports.py lines 95-97)
does.  `ast.walk` is breadth-first; this collection is in syntactic order,
which coincides with walk order whenever all imports sit at one nesting
level (as in every input analysed below). -/
def importsOfStmt : PyStmt → List ImportNode
  | .importStmt n => [n]
  | .funcDef _ _ _ body _ _ => importsOfStmts body
  | .ret _ => []
  | .exprStmt _ => []

def importsOfStmts : List PyStmt → List ImportNode
  | [] => []
  | s :: rest => importsOfStmt s ++ importsOfStmts rest

end

mutual

/-- Names contributed by an expression to `used_names` in
`ImportsRule.check` (imports.py lines 202-209): every `ast.Name` adds its
id, and every `ast.Attribute` whose value is a `Name` adds that base id.
Duplicates are irrelevant — the collection is used as a set. -/
def usedInExpr : PyExpr → List String
  | .name id => [id]
  | .attr v _ =>
    (match v with | .name id => [id] | _ => []) ++ usedInExpr v
  | .call f args => usedInExpr f ++ usedInExprs args

def usedInExprs : List PyExpr → List String
  | [] => []
  | e :: rest => usedInExpr e ++ usedInExprs rest

end

mutual

def usedInStmt : PyStmt → List String
  | .importStmt _ => []
  | .funcDef _ _ _ body _ _ => usedInStmts body
  | .ret v => (match v with | some e => usedInExpr e | none => [])
  | .exprStmt e => usedInExpr e

def usedInStmts : List PyStmt → List String
  | [] => []
  | s :: rest => usedInStmt s ++ usedInStmts rest

end

/-- Option values of `ImportsRule` with the declared defaults
(imports.py lines 25-46) and the rule's severity (warning by default). -/
structure ImportsOpts where
  check_order : Bool := true
  require_absolute_imports : Bool := false
  allow_unused_imports : Bool := false
  max_import_line_length : Nat := 100
  severity : String := "warning"

/-- Python f-string rendering of an optional module (`None` prints as
"None"). -/
def moduleRepr : Option String → String
  | some m => m
  | none => "None"

/-- Truthiness of an optional string (`None` and `""` are falsy). -/
def optStrTruthy : Option String → Bool
  | some s => s ≠ ""
  | none => false

/-- First name of an import statement, `node.names[0]`; an `ast.Import`
always carries at least one alias, so the default is never reached for
parsed code. -/
def headName (names : List ImportAlias) : String :=
  (names.headD ⟨"", none⟩).name

/-- Model of `ImportsRule._is_proper_order` (imports.py lines 261-313).
The `Import`-then-`ImportFrom` branch reads `current.module.split(...)`;
a `None` module raises there in Python (caught upstream by `lint_file`),
a case outside every input analysed here, modelled via `getD ""`. -/
def isProperOrder (prev cur : ImportNode) : Bool :=
  let isFuture : ImportNode → Bool := fun n =>
    match n with
    | .impFrom (some "__future__") _ _ _ _ => true
    | _ => false
  if isFuture cur && !isFuture prev then false
  else
    match prev, cur with
    | .imp pnames _ _, .imp cnames _ _ =>
      !(pyStrGt (firstSegment (headName pnames)) (firstSegment (headName cnames)))
    | .impFrom pm _ _ _ _, .impFrom cm _ _ _ _ =>
      if optStrTruthy pm && optStrTruthy cm then
        !(pyStrGt (firstSegment (pm.getD "")) (firstSegment (cm.getD "")))
      else true
    | .imp pnames _ _, .impFrom cm _ _ _ _ =>
      !(firstSegment (headName pnames) = firstSegment (cm.getD ""))
    | _, _ => true

/-- Model of `ImportsRule._fix_multi_import` (imports.py lines 315-327). -/
def fixMultiImport (names : List ImportAlias) (col : Nat) : String :=
  let indentation := String.mk (List.replicate col ' ')
  joinSep "\n" (names.map (fun a => indentation ++ "import " ++ a.name))

/-- Python slice `l[a:b]` on lists (clamped). -/
def pySlice (l : List String) (a b : Nat) : List String :=
  (l.drop a).take (b - a)

/-- The diagnostics appended for one import node inside the walk loop of
`ImportsRule.check` (imports.py lines 99-164): compound import, wildcard
import, relative import, and import line length, in that order. -/
def perImportResults (o : ImportsOpts) (filePath : String) (lines : List String)
    (n : ImportNode) : List RuleResult :=
  let lineStr := lines.getD (n.lineno - 1) ""
  let multi :=
    match n with
    | .imp names lineno col =>
      if names.length > 1 then
        [{ rule_id := "python-imports", file_path := filePath, line := lineno,
           column := col, message := "Multiple modules imported on one line",
           severity := o.severity, source := some lineStr,
           fix := some (fixMultiImport names col), fix_type := some "replace_line" }]
      else []
    | _ => []
  let wildcard :=
    match n with
    | .impFrom m names _ lineno col =>
      if names.any (fun a => a.name = "*") then
        [{ rule_id := "python-imports", file_path := filePath, line := lineno,
           column := col, message := "Wildcard import from " ++ moduleRepr m,
           severity := o.severity, source := some lineStr }]
      else []
    | _ => []
  let relative :=
    match n with
    | .impFrom _ _ level lineno col =>
      if level > 0 && o.require_absolute_imports then
        [{ rule_id := "python-imports", file_path := filePath, line := lineno,
           column := col, message := "Relative import used",
           severity := o.severity, source := some lineStr }]
      else []
    | _ => []
  let tooLong :=
    if lineStr.length > o.max_import_line_length then
      [{ rule_id := "python-imports", file_path := filePath, line := n.lineno,
         column := n.col,
         message := "Import line too long (" ++ toString lineStr.length ++ " > " ++
           toString o.max_import_line_length ++ ")",
         severity := o.severity, source := some lineStr }]
    else []
  multi ++ wildcard ++ relative ++ tooLong

/-- The adjacent-pair loop of the order check (imports.py lines 168-186). -/
def orderPairResults (o : ImportsOpts) (filePath : String) (lines : List String) :
    List ImportNode → List RuleResult
  | [] => []
  | [_] => []
  | prev :: cur :: rest =>
    (if !isProperOrder prev cur then
      [{ rule_id := "python-imports", file_path := filePath, line := cur.lineno,
         column := cur.col, message := "Imports not in proper order",
         severity := o.severity,
         source := some (joinSep "\n" (pySlice lines (prev.lineno - 1) cur.lineno)) }]
    else []) ++ orderPairResults o filePath lines (cur :: rest)

/-- The order check of `ImportsRule.check` (imports.py lines 166-186). -/
def orderResults (o : ImportsOpts) (filePath : String) (lines : List String)
    (imports : List ImportNode) : List RuleResult :=
  if o.check_order && imports.length > 1 then
    orderPairResults o filePath lines imports
  else []

/-- The bound import names, `imported_names` (imports.py lines 190-199):
`asname or name` for every alias, wildcards excluded. -/
def importedNames (imports : List ImportNode) : List String :=
  imports.flatMap (fun n =>
    match n with
    | .imp names _ _ => names.map (fun a => a.asname.getD a.name)
    | .impFrom _ names _ _ _ =>
      (names.filter (fun a => a.name ≠ "*")).map (fun a => a.asname.getD a.name))

/-- The unused-import check of `ImportsRule.check` (imports.py lines
188-257). -/
def unusedResults (o : ImportsOpts) (filePath : String) (lines : List String)
    (imports : List ImportNode) (used : List String) : List RuleResult :=
  if !o.allow_unused_imports then
    let imported := importedNames imports
    imports.flatMap (fun n =>
      match n with
      | .imp names lineno col =>
        names.flatMap (fun a =>
          let iname := a.asname.getD a.name
          if !(used.contains iname) && imported.contains iname then
            [{ rule_id := "python-imports", file_path := filePath, line := lineno,
               column := col, message := "Unused import: " ++ iname,
               severity := o.severity, source := some (lines.getD (lineno - 1) "") }]
          else [])
      | .impFrom m names _ lineno col =>
        if m = some "__future__" then []
        else
          names.flatMap (fun a =>
            if a.name = "*" then []
            else
              let iname := a.asname.getD a.name
              if !(used.contains iname) && imported.contains iname then
                [{ rule_id := "python-imports", file_path := filePath,
                   line := lineno, column := col,
                   message := "Unused import: " ++ moduleRepr m ++ "." ++ iname,
                   severity := o.severity,
                   source := some (lines.getD (lineno - 1) "") }]
              else []))
  else []

/-- Model of `ImportsRule.check` (imports.py lines 61-259) on an already
parsed tree: the per-import diagnostics in walk order, then the ordering
diagnostics, then the unused-import diagnostics, exactly as the three
phases of the source append them.  The `ast.parse` syntax-error branch is
outside this model — the trees below are the parser's output on
syntactically valid inputs. -/
def importsCheck (o : ImportsOpts) (filePath content : String)
    (tree : List PyStmt) : List RuleResult :=
  let lines := splitLines content
  let imports := importsOfStmts tree
  (imports.flatMap (perImportResults o filePath lines)) ++
    orderResults o filePath lines imports ++
    unusedResults o filePath lines imports (usedInStmts tree)

/-- Option values of `DocstringsRule` with the declared defaults
(docstrings.py lines 25-62) and the rule's severity. -/
structure DocstringOpts where
  required_modules : Bool := true
  required_classes : Bool := true
  required_methods : Bool := true
  ignore_private : Bool := true
  ignore_dunder : Bool := true
  ignore_test_methods : Bool := true
  style : String := "google"
  severity : String := "warning"

/-- An `ast.FunctionDef` node as `_check_function_docstring` consumes it:
name, positional argument names (`node.args.args`), whether a return
annotation is present (`node.returns` truthiness), the result of
`ast.get_docstring(node)`, and the location. -/
structure FunctionDefNode where
  name : String
  args : List String
  returnsPresent : Bool
  docstring : Option String
  lineno : Nat
  col : Nat

/-- Model of `DocstringsRule._should_ignore_function` (docstrings.py lines
296-326). -/
def shouldIgnoreFunction (o : DocstringOpts) (name : String) : Bool :=
  if o.ignore_private && pyStartsWith name "_" && !(pyStartsWith name "__") then
    true
  else if o.ignore_dunder && pyStartsWith name "__" && pyEndsWith name "__" then
    true
  else if o.ignore_test_methods && pyStartsWith name "test_" then
    true
  else false

/-- Model of `DocstringsRule._get_source_lines` (docstrings.py lines
380-396). -/
def getSourceLines (content : String) (startLine endLine : Nat) : String :=
  let lines := splitLines content
  let startIdx := max 0 (startLine - 1)
  let endIdx := min lines.length endLine
  joinSep "\n" (pySlice lines startIdx endIdx)

/-- Model of `DocstringsRule._check_docstring_style` (docstrings.py lines
328-378). -/
def checkDocstringStyle (o : DocstringOpts) (docstring nodeType : String) :
    List String :=
  if o.style = "google" then
    (if nodeType = "function" && !(pyIn "Args:" docstring) &&
        !(pyIn "Parameters:" docstring) then
      ["missing Args/Parameters section"] else []) ++
    (if nodeType = "function" && !(pyIn "Returns:" docstring) &&
        !(pyIn "Yields:" docstring) then
      ["missing Returns/Yields section"] else []) ++
    (if nodeType = "class" && !(pyIn "Attributes:" docstring) then
      ["missing Attributes section"] else [])
  else if o.style = "sphinx" then
    (if nodeType = "function" && !(pyIn ":param" docstring) then
      ["missing :param directives"] else []) ++
    (if nodeType = "function" && !(pyIn ":return:" docstring) then
      ["missing :return: directive"] else [])
  else if o.style = "numpy" then
    (if nodeType = "function" && !(pyIn "Parameters\n---------" docstring) then
      ["missing Parameters section"] else []) ++
    (if nodeType = "function" && !(pyIn "Returns\n-------" docstring) then
      ["missing Returns section"] else [])
  else []

/-- Model of `DocstringsRule._check_function_docstring` (docstrings.py
lines 200-294), returning the diagnostics it appends for one function.
Python tests `if not docstring:`, so a `None` docstring and an empty
docstring both take the missing branch. -/
def checkFunctionDocstring (o : DocstringOpts) (filePath content : String)
    (node : FunctionDefNode) : List RuleResult :=
  if !o.required_methods then []
  else if shouldIgnoreFunction o node.name then []
  else if (node.docstring.getD "").isEmpty then
    let sourceLines := getSourceLines content node.lineno (node.lineno + 1)
    let indentation := String.mk (List.replicate node.col ' ')
    let params := (node.args.filter (fun a => a ≠ "self" && a ≠ "cls")).map
      (fun a => a ++ ": Description")
    let base := [indentation ++ "    \"\"\"Function description.",
                 indentation ++ "    "]
    let withParams :=
      if params ≠ [] then
        base ++ [indentation ++ "    Args:"] ++
          params.map (fun p => indentation ++ "        " ++ p) ++
          [indentation ++ "    "]
      else base
    let withReturns :=
      if node.returnsPresent then
        withParams ++ [indentation ++ "    Returns:",
                       indentation ++ "        Value",
                       indentation ++ "    "]
      else withParams
    let docLines := withReturns ++ [indentation ++ "    \"\"\""]
    [{ rule_id := "python-docstrings", file_path := filePath,
       line := node.lineno, column := node.col,
       message := "Function '" ++ node.name ++ "' lacks a docstring",
       severity := o.severity, source := some sourceLines,
       fix := some (joinSep "\n" docLines), fix_type := some "replace_line" }]
  else
    let d := node.docstring.getD ""
    let styleIssues := checkDocstringStyle o d "function"
    if styleIssues ≠ [] && o.style ≠ "any" then
      [{ rule_id := "python-docstrings", file_path := filePath,
         line := node.lineno, column := node.col,
         message := "Function '" ++ node.name ++ "' docstring style issues: " ++
           joinSep ", " styleIssues,
         severity := o.severity,
         source := some (getSourceLines content node.lineno (node.lineno + 3)) }]
    else []

/-- Python values stored in a rule's option declarations and configuration
mappings. -/
inductive PyVal where
  | boolV (b : Bool)
  | intV (n : Int)
  | strV (s : String)
  | noneV
deriving DecidableEq

/-- A `RuleOption` declaration (rules/base.py lines 11-19). -/
structure RuleOptionDecl where
  name : String
  description : String
  default : PyVal
  choices : Option (List PyVal) := none
deriving DecidableEq

/-- Python dict lookup, `d.get(k)`, on an association list with unique
keys. -/
def lookupStr {α : Type} : List (String × α) → String → Option α
  | [], _ => none
  | (k2, v) :: rest, k => if k2 = k then some v else lookupStr rest k

/-- Model of `Rule.get_option` (rules/base.py lines 132-144): a declared
option yields the configured value, `self.config.get(name, default)`,
falling back to the declared default; an undeclared name yields `None`. -/
def getOption (options : List (String × RuleOptionDecl))
    (config : List (String × PyVal)) (name : String) : Option PyVal :=
  match lookupStr options name with
  | some opt => some ((lookupStr config name).getD opt.default)
  | none => none

/-! Concrete inputs used by the closed evaluations below.  The trees are
the `ast.parse` output (an external library call) on the quoted sources. -/

/-- Tree of `"import sys\nimport os"`. -/
def sysThenOsTree : List PyStmt :=
  [.importStmt (.imp [⟨"sys", none⟩] 1 0), .importStmt (.imp [⟨"os", none⟩] 2 0)]

/-- Tree of `"import os\nimport sys"`. -/
def osThenSysTree : List PyStmt :=
  [.importStmt (.imp [⟨"os", none⟩] 1 0), .importStmt (.imp [⟨"sys", none⟩] 2 0)]

/-- Source of the compound-import example: `import sys, os` followed by a
function using only `os`. -/
def compoundSource : String :=
  "import sys, os\n\ndef use_data():\n    return os.getcwd()"

/-- Tree of `compoundSource`. -/
def compoundTree : List PyStmt :=
  [.importStmt (.imp [⟨"sys", none⟩, ⟨"os", none⟩] 1 0),
   .funcDef "use_data" [] false
     [.ret (some (.call (.attr (.name "os") "getcwd") []))] 3 0]

/-- A fix-carrying result whose replacement text is the empty string. -/
def emptyFixResult : RuleResult :=
  { rule_id := "python-docstrings", file_path := "f.py", line := 1, column := 0,
    message := "m", severity := "warning", fix := some "",
    fix_type := some "replace_line" }

/-- A well-formed whole-line replacement targeting line 2. -/
def line2FixResult : RuleResult :=
  { rule_id := "r", file_path := "f.py", line := 2, column := 0,
    message := "m", fix := some "earth\n", fix_type := some "replace_line" }

/-- A whole-line replacement targeting line 1. -/
def line1FixResult : RuleResult :=
  { rule_id := "r", file_path := "f.py", line := 1, column := 0,
    message := "m", fix := some "X\n", fix_type := some "replace_line" }

/-- A whole-line replacement targeting line 2 with different text. -/
def line2FixResultB : RuleResult :=
  { rule_id := "r", file_path := "f.py", line := 2, column := 0,
    message := "m", fix := some "Y\n", fix_type := some "replace_line" }

/-- A stale fix addressing line 5 of a two-line file. -/
def staleFixResult : RuleResult :=
  { rule_id := "r", file_path := "f.py", line := 5, column := 0,
    message := "m", fix := some "z\n", fix_type := some "replace_line" }

/-- A rule whose check succeeds with one diagnostic. -/
def okRule : MRule :=
  ⟨"good", fun path _ =>
    .ok [{ rule_id := "good", file_path := path, line := 1, column := 0,
           message := "found" }]⟩

/-- A rule whose check raises. -/
def raisingRule : MRule :=
  ⟨"bad", fun _ _ => .error "boom"⟩

/-- A private-named function without a docstring. -/
def helperNode : FunctionDefNode :=
  ⟨"_helper", [], false, none, 1, 0⟩

/-- The declared options of an example rule: one boolean option. -/
def exampleOptions : List (String × RuleOptionDecl) :=
  [("check_order",
    ⟨"check_order", "Check that imports are properly ordered", .boolV true, none⟩)]

/-- A configuration carrying a value under a name the rule never
declared. -/
def exampleConfig : List (String × PyVal) :=
  [("stray", .intV 5)]

/-! ## Supporting lemmas -/

theorem slAux_true_flatten (acc l : List Char) :
    (slAux true acc l).flatten = acc.reverse ++ l := by
  induction acc, l using slAux.induct true <;>
    simp_all [slAux, List.append_assoc]

/-- Rejoining the kept-terminator lines reproduces the content: the fix
applier's split/join round trip is the identity. -/
theorem strJoin_splitLinesKeepEnds (s : String) :
    strJoin (splitLinesKeepEnds s) = s := by
  unfold strJoin splitLinesKeepEnds
  rw [List.map_map]
  have h : (String.data ∘ String.mk) = id := rfl
  rw [h, List.map_id, slAux_true_flatten]
  rfl

theorem foldl_runRuleStep_acc (path content : String) :
    ∀ (rules : List MRule) (acc : List RuleResult),
      rules.foldl (runRuleStep path content) acc =
        acc ++ rules.foldl (runRuleStep path content) [] := by
  intro rules
  induction rules with
  | nil => intro acc; simp
  | cons r rest ih =>
    intro acc
    simp only [List.foldl_cons]
    rw [ih (runRuleStep path content acc r), ih (runRuleStep path content [] r)]
    have h : runRuleStep path content acc r = acc ++ runRuleStep path content [] r := by
      unfold runRuleStep
      cases r.check path content <;> simp
    rw [h, List.append_assoc]

/-! ## Claims -/

/-- C1.  The spec demands that `**` in a compiled glob matches any
characters including the path separator, so `**/*.py` must match
`a/b/c.py`.  The code compiles `**/*.py` to `^\.*/[^/]*\.py$` — the final
`.`-escaping step of `_glob_to_regex` also rewrites the `.*` that the `**`
marker had just become, leaving `\.*` (zero or more literal dots).  The
compiled matcher therefore rejects `a/b/c.py` and instead accepts paths
whose leading segments are runs of literal dots, such as `..../x.py`,
contradicting both the spec and the function's own comments. -/
theorem glob_double_star_matches_only_dots :
    globToRegexString "**/*.py" = "^\\.*/[^/]*\\.py$" ∧
    globMatches "**/*.py" "a/b/c.py" = false ∧
    globMatches "**/*.py" "..../x.py" = true := by
  decide

/-- C2 (counterexample).  A fix result whose `fix` text is the empty
string, in range and of type `replace_line`, is skipped by the applier (the
Python guard `if result.fix` tests truthiness), so the target line is not
replaced by the fix text as the claim requires: the output equals the
input, not `"cd\n"`. -/
theorem apply_fixes_empty_fix_counterexample :
    emptyFixResult.fix = some "" ∧
    emptyFixResult.fix_type = some "replace_line" ∧
    emptyFixResult.line = 1 ∧
    (splitLinesKeepEnds "ab\ncd\n").length = 2 ∧
    applyFixes "ab\ncd\n" [emptyFixResult] = "ab\ncd\n" ∧
    ("ab\ncd\n" : String) ≠ "cd\n" := by
  decide

/-- C2 (amended).  For every content string and every single fix result
with a non-empty fix text whose line is within range: `replace_line`
replaces the whole target line (including its terminator) by the fix text,
and `replace_range` replaces exactly the `[start_col, end_col)` character
slice of the target line, keeping the rest of that line verbatim; all
other lines are untouched (`List.set` changes one position) and the lines
are rejoined in order with their original terminators. -/
theorem apply_single_fix_replaces_target_line (content : String)
    (r : RuleResult) (s : String) (hfix : r.fix = some s) (hne : s ≠ "")
    (hlo : 1 ≤ r.line) (hhi : r.line ≤ (splitLinesKeepEnds content).length) :
    (r.fix_type = some "replace_line" →
      applyFixes content [r] =
        strJoin ((splitLinesKeepEnds content).set (r.line - 1) s)) ∧
    (∀ a b, r.fix_type = some "replace_range" → r.fix_range = some (a, b) →
      applyFixes content [r] =
        strJoin ((splitLinesKeepEnds content).set (r.line - 1)
          (pyTake a ((splitLinesKeepEnds content).getD (r.line - 1) "") ++ s ++
            pyDrop b ((splitLinesKeepEnds content).getD (r.line - 1) "")))) := by
  have hfilter : [r].filter (fun x => x.fix.isSome) = [r] := by
    simp [List.filter_cons, hfix]
  constructor
  · intro ht
    unfold applyFixes
    rw [hfilter]
    simp only [sortDescByKey, List.foldl_cons, List.foldl_nil, insertDesc]
    unfold applyOneFix
    rw [hfix, ht]
    simp [hne, hlo, hhi]
  · intro a b ht hr
    unfold applyFixes
    rw [hfilter]
    simp only [sortDescByKey, List.foldl_cons, List.foldl_nil, insertDesc]
    unfold applyOneFix
    rw [hfix, ht, hr]
    simp [hne, hlo, hhi]

/-- C2 (witness): the amended statement applied to a concrete in-range
whole-line fix. -/
theorem apply_single_fix_replaces_target_line_witness :
    applyFixes "hello\nworld\n" [line2FixResult] =
      strJoin ((splitLinesKeepEnds "hello\nworld\n").set
        (line2FixResult.line - 1) "earth\n") :=
  (apply_single_fix_replaces_target_line "hello\nworld\n" line2FixResult
    "earth\n" rfl (by decide) (by decide) (by decide)).1 rfl

/-- C3.  When one applicable rule's check raises, `lint_file` converts the
failure into exactly one diagnostic with severity `error` carrying that
rule's id, and every other applicable rule still contributes exactly its
own results, in order. -/
theorem rule_exception_isolated (path content : String) (pre post : List MRule)
    (bad : MRule) (e : String) (hbad : bad.check path content = .error e) :
    runRules path content (pre ++ bad :: post) =
      runRules path content pre ++ [execErrorResult bad.id path e] ++
        runRules path content post ∧
    (execErrorResult bad.id path e).severity = "error" ∧
    (execErrorResult bad.id path e).rule_id = bad.id := by
  refine ⟨?_, rfl, rfl⟩
  unfold runRules
  rw [List.foldl_append, List.foldl_cons, foldl_runRuleStep_acc path content post]
  have hstep :
      runRuleStep path content (List.foldl (runRuleStep path content) [] pre) bad =
        List.foldl (runRuleStep path content) [] pre ++
          [execErrorResult bad.id path e] := by
    unfold runRuleStep
    rw [hbad]
  rw [hstep]

/-- C3 (witness): a raising rule between braces of a concrete run. -/
theorem rule_exception_isolated_witness :
    runRules "a.py" "src" [okRule, raisingRule] =
      runRules "a.py" "src" [okRule] ++ [execErrorResult "bad" "a.py" "boom"] ++
        runRules "a.py" "src" [] ∧
    (execErrorResult "bad" "a.py" "boom").severity = "error" ∧
    (execErrorResult "bad" "a.py" "boom").rule_id = "bad" :=
  rule_exception_isolated "a.py" "src" [okRule] [] raisingRule "boom" rfl

/-- C4 (counterexample).  `is_ignored` substitutes the default pattern list
`["**/*"]` when the include list is empty (`include_patterns or
["**/*"]`), so the path `/x` is accepted under the pair `([], [])` even
though it matches zero of the zero include patterns — the claimed
equivalence fails for the empty include-set. -/
theorem accept_empty_include_counterexample :
    is_ignored "/x" [] [] = false ∧
    (([] : List String).any (fun p => globMatches p (pyReplace "/x" "\\" "/"))) =
      false := by
  decide

/-- C4 (amended).  For every path and every pair whose include-set is
non-empty (an empty include list is replaced by the default `["**/*"]`
before matching), the path is accepted — `is_ignored` returns false — iff
it matches at least one include pattern and no exclude pattern; and for
every traversal, a file matching an exclude pattern never survives the
`find_files` filter, so it contributes no result to a directory
analysis. -/
theorem accepted_iff_include_and_not_exclude (path : String)
    (incl excl : List String) (hne : incl ≠ []) :
    (is_ignored path incl excl = false ↔
      (incl.any (fun p => globMatches p (pyReplace path "\\" "/")) = true ∧
       excl.any (fun p => globMatches p (pyReplace path "\\" "/")) = false)) ∧
    (∀ (relPaths : List String) (q : String),
      excl.any (fun p => globMatches p (pyReplace q "\\" "/")) = true →
      q ∉ findFilesFilter incl excl relPaths) := by
  constructor
  · have hempty : incl.isEmpty = false := by
      cases incl with
      | nil => exact absurd rfl hne
      | cons a l => rfl
    unfold is_ignored
    rw [hempty]
    cases hE : excl.any (fun p => globMatches p (pyReplace path "\\" "/")) <;>
      cases hI : incl.any (fun p => globMatches p (pyReplace path "\\" "/")) <;>
        simp [hE, hI]
  · intro relPaths q hq hmem
    unfold findFilesFilter at hmem
    rw [List.mem_filter] at hmem
    simp [hq] at hmem

/-- C4 (witness): a file matching an exclude pattern is dropped by the
traversal filter. -/
theorem accepted_iff_include_and_not_exclude_witness :
    "x" ∉ findFilesFilter ["*"] ["x"] ["x"] :=
  (accepted_iff_include_and_not_exclude "x" ["*"] ["x"] (by decide)).2
    ["x"] "x" (by decide)

/-- C5.  With ordering checks enabled (the default), `import sys` directly
followed by `import os` yields exactly one "Imports not in proper order"
diagnostic, and `import os` followed by `import sys` yields none. -/
theorem import_order_violation_concrete :
    ((importsCheck {} "test.py" "import sys\nimport os" sysThenOsTree).countP
        (fun r => r.message == "Imports not in proper order")) = 1 ∧
    ((importsCheck {} "test.py" "import os\nimport sys" osThenSysTree).countP
        (fun r => r.message == "Imports not in proper order")) = 0 := by
  decide

/-- C6.  With default options, `import sys, os` followed by a function
using only `os` yields both the compound-import diagnostic and an
unused-import diagnostic naming `sys` (and the latter is the only
unused-import diagnostic for `sys`). -/
theorem compound_and_unused_import_concrete :
    ((importsCheck {} "test.py" compoundSource compoundTree).countP
        (fun r => r.message == "Multiple modules imported on one line")) = 1 ∧
    ((importsCheck {} "test.py" compoundSource compoundTree).countP
        (fun r => r.message == "Unused import: sys")) = 1 := by
  decide

/-- C7.  Two fix-carrying results on different lines produce the same final
content in either input order: the stable descending sort by
`(line, column)` puts them in the same relative order either way. -/
theorem apply_fixes_order_independent (content : String) (r1 r2 : RuleResult)
    (h1 : r1.fix.isSome = true) (h2 : r2.fix.isSome = true)
    (hne : r1.line ≠ r2.line) :
    applyFixes content [r1, r2] = applyFixes content [r2, r1] := by
  have hf1 : [r1, r2].filter (fun x => x.fix.isSome) = [r1, r2] := by
    simp [List.filter_cons, h1, h2]
  have hf2 : [r2, r1].filter (fun x => x.fix.isSome) = [r2, r1] := by
    simp [List.filter_cons, h1, h2]
  rcases Nat.lt_trichotomy r1.line r2.line with h | h | h
  · have e1 : sortDescByKey [r1, r2] = [r2, r1] := by
      simp [sortDescByKey, insertDesc, keyLt, fixKey, h]
    have e2 : sortDescByKey [r2, r1] = [r2, r1] := by
      simp [sortDescByKey, insertDesc, keyLt, fixKey, Nat.lt_asymm h, Ne.symm hne]
    unfold applyFixes
    simp only [hf1, hf2, e1, e2]
  · exact absurd h hne
  · have e1 : sortDescByKey [r1, r2] = [r1, r2] := by
      simp [sortDescByKey, insertDesc, keyLt, fixKey, Nat.lt_asymm h, hne]
    have e2 : sortDescByKey [r2, r1] = [r1, r2] := by
      simp [sortDescByKey, insertDesc, keyLt, fixKey, h]
    unfold applyFixes
    simp only [hf1, hf2, e1, e2]

/-- C7 (witness): concrete fixes on lines 1 and 2 commute. -/
theorem apply_fixes_order_independent_witness :
    applyFixes "a\nb\n" [line1FixResult, line2FixResultB] =
      applyFixes "a\nb\n" [line2FixResultB, line1FixResult] :=
  apply_fixes_order_independent "a\nb\n" line1FixResult line2FixResultB
    rfl rfl (by decide)

/-- C8.  A fix addressing a line outside `[1, lineCount]` is skipped by the
guard `result.line > 0 and result.line <= len(lines)`: the applier performs
no line access for it and returns the content unchanged. -/
theorem out_of_range_fix_skipped (content : String) (r : RuleResult)
    (h : r.line = 0 ∨ (splitLinesKeepEnds content).length < r.line) :
    applyFixes content [r] = content := by
  unfold applyFixes
  cases hf : r.fix with
  | none =>
    simp only [List.filter_cons, hf, Option.isSome_none, Bool.false_eq_true,
      if_neg, List.filter_nil]
    simpa [sortDescByKey] using strJoin_splitLinesKeepEnds content
  | some s =>
    have hfilter : [r].filter (fun x => x.fix.isSome) = [r] := by
      simp [List.filter_cons, hf]
    rw [hfilter]
    simp only [sortDescByKey, List.foldl_cons, List.foldl_nil, insertDesc]
    have hguard : ¬(s ≠ "" ∧ 1 ≤ r.line ∧
        r.line ≤ (splitLinesKeepEnds content).length) := by
      rcases h with h0 | hgt
      · intro ⟨_, hlo, _⟩; omega
      · intro ⟨_, _, hhi⟩; omega
    simp only [applyOneFix, hf]
    rw [if_neg hguard]
    exact strJoin_splitLinesKeepEnds content

/-- C8 (witness): a stale fix addressing line 5 of a two-line file leaves
the content unchanged. -/
theorem out_of_range_fix_skipped_witness :
    applyFixes "a\nb\n" [staleFixResult] = "a\nb\n" :=
  out_of_range_fix_skipped "a\nb\n" staleFixResult (Or.inr (by decide))

/-- C9.  With the corresponding ignore options enabled, the function
docstring check emits nothing — in particular no missing-docstring
diagnostic — for a private-named function (single leading underscore, not
double), a dunder-named function (leading and trailing double underscore),
or a `test_`-prefixed function. -/
theorem ignored_functions_produce_no_diagnostic (o : DocstringOpts)
    (filePath content : String) (node : FunctionDefNode)
    (h : (o.ignore_private = true ∧ pyStartsWith node.name "_" = true ∧
            pyStartsWith node.name "__" = false) ∨
         (o.ignore_dunder = true ∧ pyStartsWith node.name "__" = true ∧
            pyEndsWith node.name "__" = true) ∨
         (o.ignore_test_methods = true ∧ pyStartsWith node.name "test_" = true)) :
    checkFunctionDocstring o filePath content node = [] := by
  have hig : shouldIgnoreFunction o node.name = true := by
    rcases h with ⟨ha, hb, hc⟩ | ⟨ha, hb, hc⟩ | ⟨ha, hb⟩
    · simp [shouldIgnoreFunction, ha, hb, hc]
    · simp only [shouldIgnoreFunction, ha, hb, hc]
      split_ifs <;> simp_all
    · simp only [shouldIgnoreFunction, ha, hb]
      split_ifs <;> simp_all
  unfold checkFunctionDocstring
  rw [hig]
  cases o.required_methods <;> simp

/-- C9 (witness): a private helper without a docstring yields no
diagnostic under default options. -/
theorem ignored_functions_produce_no_diagnostic_witness :
    checkFunctionDocstring {} "f.py" "def _helper():\n    pass" helperNode = [] :=
  ignored_functions_produce_no_diagnostic {} "f.py" "def _helper():\n    pass"
    helperNode (Or.inl ⟨rfl, by decide, by decide⟩)

/-- C10.  `get_option` on a declared option returns the configured value
when the configuration has one and the declared default otherwise; on an
undeclared name it returns `None` without raising, even when the
configuration carries a value under that name (the options mapping is
consulted first, the configuration never on its own). -/
theorem get_option_contract (options : List (String × RuleOptionDecl))
    (config : List (String × PyVal)) (name : String) :
    (∀ opt, lookupStr options name = some opt →
      (∀ v, lookupStr config name = some v →
        getOption options config name = some v) ∧
      (lookupStr config name = none →
        getOption options config name = some opt.default)) ∧
    (lookupStr options name = none → getOption options config name = none) := by
  constructor
  · intro opt hopt
    constructor
    · intro v hv
      simp [getOption, hopt, hv]
    · intro hv
      simp [getOption, hopt, hv]
  · intro h
    simp [getOption, h]

/-- C10 (witness): a name present in the configuration but undeclared by
the rule yields `None`. -/
theorem get_option_contract_witness :
    getOption exampleOptions exampleConfig "stray" = none :=
  (get_option_contract exampleOptions exampleConfig "stray").2 (by decide)

end Llint
